import Mathlib

/-!
Verification of the procedural data-simulation engine of the
smart-farm-management-system repository (Python sources under
`src/backend/services/`).

The Python code is shallowly embedded over ℚ (Python float arithmetic is
modelled by exact rational arithmetic) and ℤ (timestamps are modelled as
whole hours since the Unix epoch; `datetime.now()` becomes an explicit
`now : ℤ` parameter).  Every call to the `random` module is modelled by an
explicit draw parameter: `random.uniform(a, b)` becomes `lerp (a, b) u`
with an arbitrary rational `u` (the drawn value is `a + (b - a) * u`),
`random.randint(a, b)` becomes `a + u % (b - a + 1)` with a natural `u`,
and `random.choice(l)` becomes `l.getD (u % l.length) default`.
`math.sin(math.pi * x)` is modelled by an arbitrary function parameter
`sin0 : ℚ → ℚ` applied to `x`; no verified property depends on its values.
`uuid.uuid4()` only produces opaque fresh identifier strings that no
property inspects, so `id` fields are taken from draw parameters.
-/

namespace FarmSim

/-- Round-half-to-even to an integer, the semantics of Python's builtin
`round` on the exact rational value (float representation error is not
modelled). -/
def rhe (x : ℚ) : ℤ :=
  if x - (⌊x⌋ : ℚ) < 1/2 then ⌊x⌋
  else if 1/2 < x - (⌊x⌋ : ℚ) then ⌊x⌋ + 1
  else if ⌊x⌋ % 2 = 0 then ⌊x⌋ else ⌊x⌋ + 1

/-- Python `round(x, n)` for a non-negative number of decimal digits. -/
def pyRoundTo (n : ℕ) (x : ℚ) : ℚ := (rhe (x * 10 ^ n) : ℚ) / 10 ^ n

/-- Python `random.uniform(a, b)` modelled with an explicit draw `u`:
the drawn value is `a + (b - a) * u`. -/
def lerp (p : ℚ × ℚ) (u : ℚ) : ℚ := p.1 + (p.2 - p.1) * u

/-- Python `random.randint(a, b)` modelled with an explicit draw `u`. -/
def randintM (a b : ℕ) (u : ℕ) : ℕ := a + u % (b - a + 1)

/-! ## Crop growth simulator (`src/backend/services/crop_simulator.py`) -/

/-- The fields of one sensor reading that `calculate_growth_rate` reads. -/
structure Reading where
  temperature : ℚ
  humidity : ℚ
  soil_moisture : ℚ
  ph_level : ℚ
  rainfall : ℚ
  deriving DecidableEq

/-- `sensor_data[-168:]` — the most recent ≤168 readings. -/
def recentWindow (l : List Reading) : List Reading := l.drop (l.length - 168)

/-- Average of a field over a window, as computed by the source
(`sum(...) / len(recent_data)`). -/
def avgOf (f : Reading → ℚ) (l : List Reading) : ℚ := (l.map f).sum / (l.length : ℚ)

/-- Sum of a field over a window (used for rainfall). -/
def sumOf (f : Reading → ℚ) (l : List Reading) : ℚ := (l.map f).sum

/-- Per-parameter growth factor: 1.0 inside the optimal band, otherwise a
deviation penalty floored at 0.1. -/
def growthFactor (lo hi v : ℚ) : ℚ :=
  if lo ≤ v ∧ v ≤ hi then 1
  else max 0.1 (1 - (if v < lo then (lo - v) / lo else (v - hi) / hi) * 0.5)

/-- `crop_modifiers.get(crop_type, 1.0)` from `calculate_growth_rate`. -/
def cropModifiers (c : String) : ℚ :=
  if c = "rice" then 1
  else if c = "palm_oil" then 0.8
  else if c = "rubber" then 0.6
  else if c = "durian" then 1.2
  else if c = "banana" then 1.1
  else if c = "coconut" then 0.7
  else 1

/-- `CropGrowthSimulator.calculate_growth_rate`.  Factors are accumulated
in the `growth_factors` dict's insertion order (temperature, humidity,
soil_moisture, ph_level, rainfall) with weights 0.25/0.15/0.30/0.15/0.15. -/
def calculate_growth_rate (sensor_data : List Reading) (crop_type : String) : ℚ :=
  if sensor_data.isEmpty then 1
  else
    let recent := recentWindow sensor_data
    if recent.isEmpty then 1
    else
      let total_factor :=
        growthFactor 26 30 (avgOf (·.temperature) recent) * 0.25 +
        growthFactor 70 85 (avgOf (·.humidity) recent) * 0.15 +
        growthFactor 70 90 (avgOf (·.soil_moisture) recent) * 0.30 +
        growthFactor 6 7 (avgOf (·.ph_level) recent) * 0.15 +
        growthFactor 10 30 (sumOf (·.rainfall) recent) * 0.15
      let total_weight : ℚ := 0.25 + 0.15 + 0.30 + 0.15 + 0.15
      let growth_rate := if 0 < total_weight then total_factor / total_weight else 1
      max 0.1 (min 2 (growth_rate * cropModifiers crop_type))

/-- The six crop types known to the system. -/
def knownCropTypes : List String :=
  ["rice", "palm_oil", "rubber", "durian", "banana", "coconut"]

/-- `CropGrowthSimulator.get_stage_thresholds`: per-crop-type stage→day
thresholds in dict insertion order; unknown crop types fall back to the
rice table (`thresholds.get(crop_type, thresholds["rice"])`). -/
def get_stage_thresholds (crop_type : String) : List (String × ℚ) :=
  if crop_type = "rice" then
    [("seedling", 0), ("tillering", 30), ("panicle_initiation", 60),
     ("flowering", 90), ("grain_filling", 105), ("maturity", 120)]
  else if crop_type = "palm_oil" then
    [("nursery", 0), ("immature", 90), ("young_mature", 180),
     ("prime_mature", 270), ("old_mature", 300)]
  else if crop_type = "rubber" then
    [("immature", 0), ("young_tapping", 120), ("peak_production", 240), ("declining", 300)]
  else if crop_type = "durian" then
    [("flowering", 0), ("fruit_set", 30), ("fruit_development", 90),
     ("ripening", 120), ("harvest", 150)]
  else if crop_type = "banana" then
    [("sucker", 0), ("vegetative", 60), ("flowering", 180),
     ("bunch_development", 240), ("harvest", 300)]
  else if crop_type = "coconut" then
    [("seedling", 0), ("juvenile", 90), ("flowering", 180),
     ("bearing", 270), ("mature", 365)]
  else
    [("seedling", 0), ("tillering", 30), ("panicle_initiation", 60),
     ("flowering", 90), ("grain_filling", 105), ("maturity", 120)]

/-- `CropGrowthSimulator.get_cycle_days`: `cycles.get(crop_type, 120)`. -/
def get_cycle_days (crop_type : String) : ℚ :=
  if crop_type = "rice" then 120
  else if crop_type = "palm_oil" then 365
  else if crop_type = "rubber" then 365
  else if crop_type = "durian" then 150
  else if crop_type = "banana" then 300
  else if crop_type = "coconut" then 365
  else 120

/-- A crop record, holding the fields produced by
`MalaysianFarmSimulator.generate_crop_data` and read or overwritten by
`CropGrowthSimulator.update_crop_progress`.  `planted_date` is parsed from
its ISO string into hours since the epoch; `expected_harvest` is a
rational hour count because `update_crop_progress` adds a fractional-day
timedelta. -/
structure CropRec where
  id : String
  ctype : String
  variety : String
  plantedDate : ℤ
  expectedHarvest : ℚ
  growthStage : String
  growthProgress : ℚ
  yieldEstimate : ℚ
  yieldPerHectare : ℚ
  healthStatus : String
  diseaseRisk : String
  pestPressure : String
  irrigationNeeds : String
  fertilizerLastApplied : ℤ
  pesticideLastApplied : ℤ
  deriving DecidableEq

/-- Result of `update_crop_progress`: the merged input record with the
overwritten fields, plus the two keys the update adds (`growth_rate`,
`last_growth_update`). -/
structure UpdatedCrop where
  merged : CropRec
  growthRate : ℚ
  lastGrowthUpdate : ℤ
  deriving DecidableEq

/-- `CropGrowthSimulator.update_crop_progress`.  `days_since_planted` is
`(datetime.now() - planted_date).days`, i.e. the floor of the elapsed time
in whole days (Python `timedelta.days` floors toward -∞). -/
def update_crop_progress (now : ℤ) (crop_data : CropRec) (growth_rate : ℚ) : UpdatedCrop :=
  let days_since_planted : ℤ := (now - crop_data.plantedDate) / 24
  let actual_progress : ℚ := (days_since_planted : ℚ) * growth_rate
  let stage_thresholds := get_stage_thresholds crop_data.ctype
  let current_stage :=
    stage_thresholds.foldl (fun acc st => if actual_progress ≥ st.2 then st.1 else acc) "seedling"
  let yield_modifier : ℚ :=
    if growth_rate > 1.2 then 1.1 else if growth_rate < 0.8 then 0.9 else 1.0
  let updated_yield := crop_data.yieldEstimate * yield_modifier
  let total_cycle_days := get_cycle_days crop_data.ctype
  let remaining_days := (total_cycle_days - actual_progress) / growth_rate
  let expected_harvest : ℚ := (now : ℚ) + remaining_days * 24
  { merged := { crop_data with
      growthStage := current_stage
      growthProgress := min 100 (actual_progress / total_cycle_days * 100)
      yieldEstimate := pyRoundTo 0 updated_yield
      expectedHarvest := expected_harvest }
    growthRate := pyRoundTo 2 growth_rate
    lastGrowthUpdate := now }

/-! ## Civil calendar

Python `datetime` arithmetic is on the proleptic Gregorian calendar.
Times are hours since the Unix epoch; `civilMonthOfDay` recovers the
calendar month of an epoch-day number (standard days-to-civil
conversion). -/

/-- Epoch day (days since 1970-01-01) of an hour timestamp. -/
def epochDayOfHours (t : ℤ) : ℤ := t / 24

/-- Hour of day (0–23) of an hour timestamp, as Python `datetime.hour`. -/
def hourOfHours (t : ℤ) : ℤ := t % 24

/-- Calendar month (1–12) of an epoch-day number, proleptic Gregorian. -/
def civilMonthOfDay (z : ℤ) : ℤ :=
  let z' := z + 719468
  let era := z' / 146097
  let doe := z' - era * 146097
  let yoe := (doe - doe / 1460 + doe / 36524 - doe / 146096) / 365
  let doy := doe - (365 * yoe + yoe / 4 - yoe / 100)
  let mp := (5 * doy + 2) / 153
  mp + (if mp < 10 then 3 else -9)

/-- Calendar month of an hour timestamp. -/
def monthOfHours (t : ℤ) : ℤ := civilMonthOfDay (epochDayOfHours t)

/-! ## Data simulator (`src/backend/services/data_simulator.py`) -/

/-- One entry of `MalaysianFarmSimulator.weather_patterns` (the month
list is kept in `seasonForMonth` below). -/
structure WeatherPattern where
  tempRange : ℚ × ℚ
  humidityRange : ℚ × ℚ
  rainfallRange : ℚ × ℚ
  soilMoistureModifier : ℚ

/-- `weather_patterns` keyed by season name.  The three keys produced by
`get_current_season` are always valid; the fallback default mirrors the
transition entry and is unreachable from this engine's own calls. -/
def weatherPatterns (season : String) : WeatherPattern :=
  if season = "dry_season" then
    { tempRange := (26, 35), humidityRange := (60, 80),
      rainfallRange := (0, 15), soilMoistureModifier := -10 }
  else if season = "wet_season" then
    { tempRange := (24, 32), humidityRange := (70, 95),
      rainfallRange := (10, 80), soilMoistureModifier := 15 }
  else
    { tempRange := (25, 33), humidityRange := (65, 85),
      rainfallRange := (5, 40), soilMoistureModifier := 0 }

/-- The month→season partition encoded by the `months` lists of
`weather_patterns`, checked in dict insertion order with the
`return "transition"` fallback of `get_current_season`. -/
def seasonForMonth (month : ℤ) : String :=
  if month = 6 ∨ month = 7 ∨ month = 8 ∨ month = 9 then "dry_season"
  else if month = 10 ∨ month = 11 ∨ month = 12 ∨ month = 1 ∨ month = 2 ∨ month = 3 then
    "wet_season"
  else if month = 4 ∨ month = 5 then "transition"
  else "transition"

/-- `MalaysianFarmSimulator.get_current_season`: the season of the month
of `datetime.now()` — note: of the *unshifted* current time. -/
def get_current_season (now : ℤ) : String := seasonForMonth (monthOfHours now)

/-- The random draws consumed by one `generate_weather_data` call, one
per `random.*` call site. -/
structure WeatherDraws where
  tempBaseU : ℚ
  nightRedU : ℚ
  humidityBaseU : ℚ
  rainU : ℚ
  rainAmtU : ℚ
  nightLightU : ℚ

/-- A weather sample as returned by `generate_weather_data`. -/
structure Weather where
  temperature : ℚ
  humidity : ℚ
  rainfall : ℚ
  light_intensity : ℚ
  season : String
  time : ℤ

/-- `MalaysianFarmSimulator.generate_weather_data`.  `sin0 x` stands for
`math.sin(math.pi * x)`; the `base_location` argument is unused by the
source body and omitted. -/
def generate_weather_data (now : ℤ) (time_offset_hours : ℤ) (d : WeatherDraws)
    (sin0 : ℚ → ℚ) : Weather :=
  let season := get_current_season now
  let weather := weatherPatterns season
  let current_time := now + time_offset_hours
  let hour := hourOfHours current_time
  let temp_base := lerp weather.tempRange d.tempBaseU
  let temp_modifier : ℚ :=
    if 6 ≤ hour ∧ hour ≤ 18 then sin0 (((hour : ℚ) - 6) / 12) * 3
    else -(lerp (2, 5) d.nightRedU)
  let temperature := pyRoundTo 1 (temp_base + temp_modifier)
  let humidity_base := lerp weather.humidityRange d.humidityBaseU
  let humidity := pyRoundTo 1 (max 50 (humidity_base - (temperature - 27) * 2))
  let rainfall_chance : ℚ := if season = "dry_season" then 0.3 else 0.7
  let rainfall : ℚ :=
    if d.rainU < rainfall_chance then pyRoundTo 1 (lerp weather.rainfallRange d.rainAmtU)
    else 0
  let base_light : ℚ :=
    if 6 ≤ hour ∧ hour ≤ 18 then
      let b : ℚ := 50000 + ((hour : ℚ) - 12) ^ 2 * (-2000)
      if rainfall > 10 then b * 0.3 else b
    else lerp (0, 100) d.nightLightU
  { temperature := temperature
    humidity := humidity
    rainfall := rainfall
    light_intensity := pyRoundTo 0 (max 0 base_light)
    season := season
    time := current_time }

/-- One entry of `MalaysianFarmSimulator.crop_data`. -/
structure CropInfo where
  varieties : List String
  growthStages : List String
  growthCycleDays : ℕ
  yieldRange : ℚ × ℚ
  optimalPh : ℚ × ℚ
  optimalMoisture : ℚ × ℚ
  optimalTemp : ℚ × ℚ

/-- `crop_data` as a partial lookup: `none` models a missing key. -/
def cropData (crop_type : String) : Option CropInfo :=
  if crop_type = "rice" then some
    { varieties := ["MR220", "MR219", "MR297", "Bario", "Fragrant Rice"]
      growthStages := ["seedling", "tillering", "panicle_initiation", "flowering",
                       "grain_filling", "maturity"]
      growthCycleDays := 120, yieldRange := (3000, 7000)
      optimalPh := (5.5, 7.0), optimalMoisture := (80, 95), optimalTemp := (26, 32) }
  else if crop_type = "palm_oil" then some
    { varieties := ["Dura", "Pisifera", "Tenera", "MPOB Yangambi", "FELDA"]
      growthStages := ["nursery", "immature", "young_mature", "prime_mature", "old_mature"]
      growthCycleDays := 365, yieldRange := (15000, 25000)
      optimalPh := (4.5, 6.5), optimalMoisture := (60, 80), optimalTemp := (24, 28) }
  else if crop_type = "rubber" then some
    { varieties := ["RRIM 600", "RRIM 2020", "RRIM 3001", "PB 260", "GT 1"]
      growthStages := ["immature", "young_tapping", "peak_production", "declining"]
      growthCycleDays := 365, yieldRange := (1200, 2500)
      optimalPh := (4.5, 6.0), optimalMoisture := (70, 85), optimalTemp := (24, 30) }
  else if crop_type = "durian" then some
    { varieties := ["Musang King", "D24", "Red Prawn", "IOI", "Tekka"]
      growthStages := ["flowering", "fruit_set", "fruit_development", "ripening", "harvest"]
      growthCycleDays := 150, yieldRange := (8000, 15000)
      optimalPh := (6.0, 7.5), optimalMoisture := (70, 90), optimalTemp := (26, 32) }
  else if crop_type = "banana" then some
    { varieties := ["Cavendish", "Pisang Mas", "Pisang Raja", "Berangan", "Rastali"]
      growthStages := ["sucker", "vegetative", "flowering", "bunch_development", "harvest"]
      growthCycleDays := 300, yieldRange := (20000, 40000)
      optimalPh := (5.5, 7.0), optimalMoisture := (75, 85), optimalTemp := (26, 30) }
  else if crop_type = "coconut" then some
    { varieties := ["Malayan Dwarf", "Malayan Tall", "MATAG", "MAWA", "Hybrid"]
      growthStages := ["seedling", "juvenile", "flowering", "bearing", "mature"]
      growthCycleDays := 365, yieldRange := (6000, 12000)
      optimalPh := (5.2, 8.0), optimalMoisture := (60, 80), optimalTemp := (27, 32) }
  else none

/-- Fallback used by `generate_soil_data`:
`self.crop_data.get(crop_type, self.crop_data["rice"])`. -/
def cropDataOrRice (crop_type : String) : CropInfo :=
  (cropData crop_type).getD ((cropData "rice").getD
    { varieties := [], growthStages := [], growthCycleDays := 0, yieldRange := (0, 0),
      optimalPh := (0, 0), optimalMoisture := (0, 0), optimalTemp := (0, 0) })

/-- Draws consumed by one `generate_soil_data` call (one per call site;
only one of the three moisture-modifier draws is consumed, selected by the
rainfall branch). -/
structure SoilDraws where
  moistureBaseU : ℚ
  modHighRainU : ℚ
  modNoRainU : ℚ
  modSomeRainU : ℚ
  phU : ℚ
  nitrogenU : ℚ
  phosphorusU : ℚ
  potassiumU : ℚ
  organicU : ℚ

/-- A soil sample as returned by `generate_soil_data`. -/
structure SoilData where
  soil_moisture : ℚ
  ph_level : ℚ
  nitrogen : ℚ
  phosphorus : ℚ
  potassium : ℚ
  organic_matter : ℚ
  deriving DecidableEq

/-- `MalaysianFarmSimulator.generate_soil_data`.  Returns `none` when the
season string of the incoming weather record is not a `weather_patterns`
key (the source would raise `KeyError` there). -/
def generate_soil_data (crop_type : String) (weather_data : Weather) (d : SoilDraws) :
    Option SoilData :=
  let crop_info := cropDataOrRice crop_type
  let moisture_base := lerp crop_info.optimalMoisture d.moistureBaseU
  let moisture_modifier : ℚ :=
    if weather_data.rainfall > 20 then lerp (5, 15) d.modHighRainU
    else if weather_data.rainfall = 0 then lerp (-10, -5) d.modNoRainU
    else lerp (-2, 5) d.modSomeRainU
  if weather_data.season = "dry_season" ∨ weather_data.season = "wet_season" ∨
      weather_data.season = "transition" then
    let season_modifier := (weatherPatterns weather_data.season).soilMoistureModifier
    some
      { soil_moisture :=
          pyRoundTo 1 (max 20 (min 100 (moisture_base + moisture_modifier + season_modifier)))
        ph_level := pyRoundTo 1 (lerp (crop_info.optimalPh.1 - 0.5, crop_info.optimalPh.2 + 0.5) d.phU)
        nitrogen := pyRoundTo 1 (lerp (20, 80) d.nitrogenU)
        phosphorus := pyRoundTo 1 (lerp (10, 50) d.phosphorusU)
        potassium := pyRoundTo 1 (lerp (100, 300) d.potassiumU)
        organic_matter := pyRoundTo 1 (lerp (2.0, 8.0) d.organicU) }
  else none

/-- Draws consumed by one `generate_crop_data` call. -/
structure CropDraws where
  idStr : String
  varietyU : ℕ
  daysU : ℕ
  baseYieldU : ℚ
  yieldModLateU : ℚ
  yieldModEarlyU : ℚ
  healthU : ℕ
  diseaseU : ℕ
  pestU : ℕ
  irrigationU : ℕ
  fertilizerU : ℕ
  pesticideU : ℕ

/-- `MalaysianFarmSimulator.generate_crop_data`.  The source indexes
`self.crop_data[crop_type]` directly, so an unknown crop type raises
`KeyError`; that failure is modelled as `none`. -/
def generate_crop_data (now : ℤ) (crop_type : String) (plot_area : ℚ) (d : CropDraws) :
    Option CropRec :=
  match cropData crop_type with
  | none => none
  | some crop_info =>
    let variety := crop_info.varieties.getD (d.varietyU % crop_info.varieties.length) ""
    let days_since_planted : ℕ := 10 + d.daysU % (crop_info.growthCycleDays - 30 - 10 + 1)
    let total_stages := crop_info.growthStages.length
    let current_stage_index :=
      min ((days_since_planted * total_stages) / crop_info.growthCycleDays) (total_stages - 1)
    let growth_stage := crop_info.growthStages.getD current_stage_index ""
    let progress_percentage : ℚ :=
      ((days_since_planted : ℚ) / (crop_info.growthCycleDays : ℚ)) * 100
    let base_yield := lerp crop_info.yieldRange d.baseYieldU
    let yield_modifier : ℚ :=
      if growth_stage = "maturity" ∨ growth_stage = "harvest" ∨ growth_stage = "ripening" then
        lerp (0.9, 1.1) d.yieldModLateU
      else lerp (0.3, 0.8) d.yieldModEarlyU
    let estimated_yield := pyRoundTo 0 (base_yield * yield_modifier * plot_area)
    let planted_date : ℤ := now - 24 * (days_since_planted : ℤ)
    some
      { id := d.idStr
        ctype := crop_type
        variety := variety
        plantedDate := planted_date
        expectedHarvest := ((planted_date + 24 * (crop_info.growthCycleDays : ℤ) : ℤ) : ℚ)
        growthStage := growth_stage
        growthProgress := pyRoundTo 1 progress_percentage
        yieldEstimate := estimated_yield
        yieldPerHectare := pyRoundTo 0 (estimated_yield / plot_area)
        healthStatus := ["excellent", "good", "fair", "poor"].getD (d.healthU % 4) ""
        diseaseRisk := ["low", "medium", "high"].getD (d.diseaseU % 3) ""
        pestPressure := ["minimal", "moderate", "high"].getD (d.pestU % 3) ""
        irrigationNeeds := ["low", "medium", "high"].getD (d.irrigationU % 3) ""
        fertilizerLastApplied := now - 24 * (randintM 7 60 d.fertilizerU : ℤ)
        pesticideLastApplied := now - 24 * (randintM 14 90 d.pesticideU : ℤ) }

/-- The fields of an equipment record that `simulate_equipment_alerts`
reads.  `lastMaintenance` is the parsed ISO timestamp in hours;
`fuelLevel` is nullable (`None` ↦ `none`). -/
structure Equipment where
  id : String
  name : String
  lastMaintenance : ℤ
  fuelLevel : Option ℚ
  efficiency : ℚ
  deriving DecidableEq

/-- An alert as emitted by `simulate_equipment_alerts`.  `messageValue`
is the numeric payload interpolated into the message f-string (overdue
days / fuel level / efficiency); the freshly drawn `uuid4` id is opaque
and not modelled. -/
structure Alert where
  atype : String
  severity : String
  equipmentId : String
  equipmentName : String
  messageValue : ℚ
  timestamp : ℤ
  actionRequired : String
  deriving DecidableEq

/-- The loop body of `simulate_equipment_alerts` for one equipment item:
maintenance, fuel, efficiency alerts in source order.  The fuel guard is
Python `equipment.get("fuel_level") and equipment["fuel_level"] < 25`,
whose first conjunct is a *truthiness* test: it fails both for `None` and
for a fuel level of exactly 0. -/
def alertsForEquipment (now : ℤ) (e : Equipment) : List Alert :=
  let days_since_maintenance : ℤ := (now - e.lastMaintenance) / 24
  let maintenanceAlerts : List Alert :=
    if days_since_maintenance > 60 then
      [{ atype := "maintenance"
         severity := if days_since_maintenance > 90 then "high" else "medium"
         equipmentId := e.id, equipmentName := e.name
         messageValue := ((days_since_maintenance - 60 : ℤ) : ℚ)
         timestamp := now, actionRequired := "Schedule maintenance" }]
    else []
  let fuelAlerts : List Alert :=
    match e.fuelLevel with
    | none => []
    | some v =>
      if v ≠ 0 ∧ v < 25 then
        [{ atype := "fuel"
           severity := if v > 15 then "medium" else "high"
           equipmentId := e.id, equipmentName := e.name
           messageValue := v
           timestamp := now, actionRequired := "Refuel equipment" }]
      else []
  let efficiencyAlerts : List Alert :=
    if e.efficiency < 80 then
      [{ atype := "efficiency"
         severity := "medium"
         equipmentId := e.id, equipmentName := e.name
         messageValue := e.efficiency
         timestamp := now, actionRequired := "Check equipment performance" }]
    else []
  maintenanceAlerts ++ fuelAlerts ++ efficiencyAlerts

/-- `MalaysianFarmSimulator.simulate_equipment_alerts`: the per-item
alerts appended in list order.  Stateless — no record of previously
emitted alerts exists anywhere in the class. -/
def simulate_equipment_alerts (now : ℤ) (equipment_list : List Equipment) : List Alert :=
  equipment_list.flatMap (alertsForEquipment now)

/-- Draws consumed per day of `generate_weather_forecast` (beyond the
nested `generate_weather_data` call). -/
structure ForecastDraws where
  tempMinU : ℚ
  tempMaxU : ℚ
  rainProbU : ℕ
  windU : ℚ
  uvU : ℕ
  conditionsU : ℕ

/-- One forecast entry.  `date` is the epoch-day number carried by the
`%Y-%m-%d` date string; `weekday` stands for the `%A` day name (0 =
Thursday, since day 0 = 1970-01-01 was a Thursday). -/
structure ForecastEntry where
  date : ℤ
  weekday : ℤ
  temperature_min : ℚ
  temperature_max : ℚ
  humidity : ℚ
  rainfall_probability : ℕ
  rainfall_amount : ℚ
  wind_speed : ℚ
  uv_index : ℕ
  conditions : String

/-- `MalaysianFarmSimulator.generate_weather_forecast`: one entry per
`day in range(1, days + 1)`, each dated `datetime.now() + timedelta(days=day)`
and built from a weather sample at offset `day * 24` hours. -/
def generate_weather_forecast (now : ℤ) (days : ℕ) (wd : ℕ → WeatherDraws)
    (fd : ℕ → ForecastDraws) (sin0 : ℚ → ℚ) : List ForecastEntry :=
  (List.range days).map (fun i =>
    let day : ℕ := i + 1
    let future_date := epochDayOfHours (now + 24 * (day : ℤ))
    let weather_data := generate_weather_data now (24 * (day : ℤ)) (wd i) sin0
    { date := future_date
      weekday := future_date % 7
      temperature_min := pyRoundTo 1 (weather_data.temperature - lerp (3, 8) (fd i).tempMinU)
      temperature_max := pyRoundTo 1 (weather_data.temperature + lerp (2, 6) (fd i).tempMaxU)
      humidity := weather_data.humidity
      rainfall_probability := randintM 20 80 (fd i).rainProbU
      rainfall_amount := weather_data.rainfall
      wind_speed := pyRoundTo 1 (lerp (5, 20) (fd i).windU)
      uv_index := randintM 6 12 (fd i).uvU
      conditions := ["Sunny", "Partly Cloudy", "Cloudy", "Light Rain",
                     "Heavy Rain", "Thunderstorms", "Hazy"].getD ((fd i).conditionsU % 7) "" })

/-! ## Concrete sample values used in witnesses and counterexamples -/

/-- A sensor reading in which every factor sits inside its optimal band. -/
def optimalReading : Reading :=
  { temperature := 28, humidity := 75, soil_moisture := 80, ph_level := 13/2, rainfall := 20 }

/-- A draw record with all draws at the low end of their ranges. -/
def zeroWeatherDraws : WeatherDraws :=
  { tempBaseU := 0, nightRedU := 0, humidityBaseU := 0, rainU := 0,
    rainAmtU := 0, nightLightU := 0 }

/-- A forecast draw record with all draws at the low end. -/
def zeroForecastDraws : ForecastDraws :=
  { tempMinU := 0, tempMaxU := 0, rainProbU := 0, windU := 0, uvU := 0, conditionsU := 0 }

/-- A crop-generation draw record with all draws at the low end. -/
def someCropDraws : CropDraws :=
  { idStr := "cid", varietyU := 0, daysU := 0, baseYieldU := 0, yieldModLateU := 0,
    yieldModEarlyU := 0, healthU := 0, diseaseU := 0, pestU := 0, irrigationU := 0,
    fertilizerU := 0, pesticideU := 0 }

/-- A soil draw record with all draws at the low end. -/
def someSoilDraws : SoilDraws :=
  { moistureBaseU := 0, modHighRainU := 0, modNoRainU := 0, modSomeRainU := 0, phU := 0,
    nitrogenU := 0, phosphorusU := 0, potassiumU := 0, organicU := 0 }

/-- A weather record used as an argument in witnesses. -/
def sampleWeather : Weather :=
  { temperature := 30, humidity := 70, rainfall := 0, light_intensity := 0,
    season := "dry_season", time := 0 }

/-- An equipment item with an empty tank (`fuel_level = 0`) and no other
alert condition (freshly maintained, efficiency 90). -/
def fuelZeroEquipment : Equipment :=
  { id := "eq-0", name := "Tractor A", lastMaintenance := 0, fuelLevel := some 0,
    efficiency := 90 }

/-- An equipment item with `fuel_level = 10` and no other alert condition. -/
def fuelTenEquipment : Equipment :=
  { id := "eq-1", name := "Tractor B", lastMaintenance := 0, fuelLevel := some 10,
    efficiency := 90 }

/-- A placeholder crop record (all fields inert). -/
def dummyCrop : CropRec :=
  { id := "", ctype := "", variety := "", plantedDate := 0, expectedHarvest := 0,
    growthStage := "", growthProgress := 0, yieldEstimate := 0, yieldPerHectare := 0,
    healthStatus := "", diseaseRisk := "", pestPressure := "", irrigationNeeds := "",
    fertilizerLastApplied := 0, pesticideLastApplied := 0 }

/-- A rice crop whose `planted_date` (hour 24) lies in the future of the
update instant `now = 0`. -/
def futureCrop : CropRec :=
  { id := "c1", ctype := "rice", variety := "MR220", plantedDate := 24,
    expectedHarvest := 0, growthStage := "seedling", growthProgress := 0,
    yieldEstimate := 1000, yieldPerHectare := 0, healthStatus := "good",
    diseaseRisk := "low", pestPressure := "minimal", irrigationNeeds := "low",
    fertilizerLastApplied := 0, pesticideLastApplied := 0 }

/-- A rice crop planted 10 days before hour 0. -/
def pastCrop : CropRec :=
  { id := "c2", ctype := "rice", variety := "MR220", plantedDate := -240,
    expectedHarvest := 0, growthStage := "seedling", growthProgress := 0,
    yieldEstimate := 1000, yieldPerHectare := 0, healthStatus := "good",
    diseaseRisk := "low", pestPressure := "minimal", irrigationNeeds := "low",
    fertilizerLastApplied := 0, pesticideLastApplied := 0 }

/-! ## Helper lemmas -/

lemma recentWindow_isEmpty_eq_false (l : List Reading) (h : l ≠ []) :
    (recentWindow l).isEmpty = false := by
  unfold recentWindow
  have hpos : 0 < l.length := List.length_pos.mpr h
  rw [List.isEmpty_eq_false_iff_exists_mem]
  have hlen : (l.drop (l.length - 168)).length = l.length - (l.length - 168) :=
    List.length_drop _ _
  have : 0 < (l.drop (l.length - 168)).length := by omega
  exact List.exists_mem_of_length_pos this

lemma rhe_floor_le (x : ℚ) : ⌊x⌋ ≤ rhe x := by
  unfold rhe
  split
  · exact le_refl _
  · split
    · omega
    · split <;> omega

lemma rhe_le_of_le_int (x : ℚ) (z : ℤ) (h : x ≤ (z : ℚ)) : rhe x ≤ z := by
  have hf : ⌊x⌋ ≤ z := by
    have := Int.floor_le_floor h
    simpa using this
  rcases eq_or_lt_of_le hf with heq | hlt
  · have hr : x - (⌊x⌋ : ℚ) ≤ 0 := by
      rw [heq]; linarith
    unfold rhe
    split
    · exact hf
    · rename_i hcond
      exfalso
      apply hcond
      calc x - (⌊x⌋ : ℚ) ≤ 0 := hr
        _ < 1/2 := by norm_num
  · unfold rhe
    split
    · exact hf
    · split
      · omega
      · split <;> omega

lemma int_le_rhe_of_le (x : ℚ) (z : ℤ) (h : (z : ℚ) ≤ x) : z ≤ rhe x := by
  have hf : z ≤ ⌊x⌋ := Int.le_floor.mpr h
  exact le_trans hf (rhe_floor_le x)

lemma pyRoundTo_nonneg (n : ℕ) (x : ℚ) (h : 0 ≤ x) : 0 ≤ pyRoundTo n x := by
  unfold pyRoundTo
  apply div_nonneg
  · have : (0 : ℤ) ≤ rhe (x * 10 ^ n) := by
      apply int_le_rhe_of_le
      push_cast
      positivity
    exact_mod_cast this
  · positivity

lemma pyRoundTo_le (n : ℕ) (x : ℚ) (z : ℤ) (h : x ≤ (z : ℚ)) :
    pyRoundTo n x ≤ (z : ℚ) := by
  unfold pyRoundTo
  rw [div_le_iff₀ (by positivity)]
  have hrhe : rhe (x * 10 ^ n) ≤ z * 10 ^ n := by
    apply rhe_le_of_le_int
    push_cast
    have hp : (0 : ℚ) < 10 ^ n := by positivity
    calc x * 10 ^ n ≤ (z : ℚ) * 10 ^ n := by
          apply mul_le_mul_of_nonneg_right h (le_of_lt hp)
      _ = (z : ℚ) * 10 ^ n := rfl
  calc ((rhe (x * 10 ^ n) : ℚ)) ≤ ((z * 10 ^ n : ℤ) : ℚ) := by exact_mod_cast hrhe
    _ = (z : ℚ) * 10 ^ n := by push_cast; ring

lemma genProgress_bounds (cyc : ℕ) (u : ℕ) (hcyc : 40 ≤ cyc) :
    0 ≤ pyRoundTo 1 (((10 + u % (cyc - 30 - 10 + 1) : ℕ) : ℚ) / (cyc : ℚ) * 100) ∧
    pyRoundTo 1 (((10 + u % (cyc - 30 - 10 + 1) : ℕ) : ℚ) / (cyc : ℚ) * 100) ≤ 100 := by
  set d : ℕ := 10 + u % (cyc - 30 - 10 + 1) with hd
  have hdle : d ≤ cyc := by
    have := Nat.mod_lt u (show 0 < cyc - 30 - 10 + 1 by omega)
    omega
  have hcycpos : (0 : ℚ) < (cyc : ℚ) := by
    exact_mod_cast (show 0 < cyc by omega)
  have h0 : (0 : ℚ) ≤ (d : ℚ) / (cyc : ℚ) * 100 := by positivity
  have h1 : (d : ℚ) / (cyc : ℚ) * 100 ≤ 100 := by
    rw [div_mul_eq_mul_div, div_le_iff₀ hcycpos]
    have : (d : ℚ) ≤ (cyc : ℚ) := by exact_mod_cast hdle
    nlinarith
  refine ⟨pyRoundTo_nonneg 1 _ h0, ?_⟩
  have := pyRoundTo_le 1 _ 100 (by exact_mod_cast h1)
  simpa using this

lemma get_cycle_days_pos (crop_type : String) : (0 : ℚ) < get_cycle_days crop_type := by
  unfold get_cycle_days
  split_ifs <;> norm_num

/-! ## Claim theorems -/

/-- C1: for every input list of sensor readings (any length, any field
values) and every one of the 6 known crop types, `calculate_growth_rate`
returns a value within [0.1, 2.0]. -/
theorem C1_growth_rate_clamped (sensor_data : List Reading) (crop_type : String)
    (hc : crop_type ∈ knownCropTypes) :
    (0.1 : ℚ) ≤ calculate_growth_rate sensor_data crop_type ∧
      calculate_growth_rate sensor_data crop_type ≤ 2 := by
  clear hc
  simp only [calculate_growth_rate]
  split
  · norm_num
  · split
    · norm_num
    · constructor
      · exact le_max_left _ _
      · exact max_le (by norm_num) (min_le_left _ _)

/-- C1 witness: the bounds hold at a concrete window and crop type. -/
theorem C1_growth_rate_clamped_witness :
    "rice" ∈ knownCropTypes ∧
      ((0.1 : ℚ) ≤ calculate_growth_rate [optimalReading] "rice" ∧
        calculate_growth_rate [optimalReading] "rice" ≤ 2) :=
  ⟨by decide, C1_growth_rate_clamped [optimalReading] "rice" (by decide)⟩

/-- C3: for every crop type (in fact any string), `calculate_growth_rate`
on the empty reading list returns exactly 1.0; the empty-window guard
fires before any division, so no division by `len(recent_data)` occurs. -/
theorem C3_empty_window_default (crop_type : String) :
    calculate_growth_rate [] crop_type = 1 := by
  simp [calculate_growth_rate]

/-- C2: on a non-empty window whose five averaged/summed factors all lie
inside their optimal bands, `calculate_growth_rate` returns exactly the
crop-type modifier (clamping is the identity on all six modifiers). -/
theorem C2_optimal_window_gives_modifier (l : List Reading) (crop_type : String)
    (hne : l ≠ [])
    (ht1 : 26 ≤ avgOf (·.temperature) (recentWindow l))
    (ht2 : avgOf (·.temperature) (recentWindow l) ≤ 30)
    (hh1 : 70 ≤ avgOf (·.humidity) (recentWindow l))
    (hh2 : avgOf (·.humidity) (recentWindow l) ≤ 85)
    (hm1 : 70 ≤ avgOf (·.soil_moisture) (recentWindow l))
    (hm2 : avgOf (·.soil_moisture) (recentWindow l) ≤ 90)
    (hp1 : 6 ≤ avgOf (·.ph_level) (recentWindow l))
    (hp2 : avgOf (·.ph_level) (recentWindow l) ≤ 7)
    (hr1 : 10 ≤ sumOf (·.rainfall) (recentWindow l))
    (hr2 : sumOf (·.rainfall) (recentWindow l) ≤ 30)
    (hc : crop_type ∈ knownCropTypes) :
    calculate_growth_rate l crop_type = cropModifiers crop_type := by
  have hE : l.isEmpty = false := by
    cases l with
    | nil => exact absurd rfl hne
    | cons a t => rfl
  have hR : (recentWindow l).isEmpty = false := recentWindow_isEmpty_eq_false l hne
  have f1 : growthFactor 26 30 (avgOf (·.temperature) (recentWindow l)) = 1 := by
    unfold growthFactor; rw [if_pos ⟨ht1, ht2⟩]
  have f2 : growthFactor 70 85 (avgOf (·.humidity) (recentWindow l)) = 1 := by
    unfold growthFactor; rw [if_pos ⟨hh1, hh2⟩]
  have f3 : growthFactor 70 90 (avgOf (·.soil_moisture) (recentWindow l)) = 1 := by
    unfold growthFactor; rw [if_pos ⟨hm1, hm2⟩]
  have f4 : growthFactor 6 7 (avgOf (·.ph_level) (recentWindow l)) = 1 := by
    unfold growthFactor; rw [if_pos ⟨hp1, hp2⟩]
  have f5 : growthFactor 10 30 (sumOf (·.rainfall) (recentWindow l)) = 1 := by
    unfold growthFactor; rw [if_pos ⟨hr1, hr2⟩]
  simp only [calculate_growth_rate, hE, hR, f1, f2, f3, f4, f5, Bool.false_eq_true,
    if_false]
  have hone : (if 0 < (0.25 + 0.15 + 0.30 + 0.15 + 0.15 : ℚ) then
      ((1 * 0.25 + 1 * 0.15 + 1 * 0.30 + 1 * 0.15 + 1 * 0.15) /
        (0.25 + 0.15 + 0.30 + 0.15 + 0.15) : ℚ) else 1) = 1 := by norm_num
  rw [hone, one_mul]
  have hm1 : (0.1 : ℚ) ≤ cropModifiers crop_type := by
    fin_cases hc <;>
      simp only [cropModifiers, String.reduceEq, if_false, if_true, reduceIte] <;> norm_num
  have hm2 : cropModifiers crop_type ≤ 2 := by
    fin_cases hc <;>
      simp only [cropModifiers, String.reduceEq, if_false, if_true, reduceIte] <;> norm_num
  rw [min_eq_right hm2, max_eq_right hm1]

/-- C2 witness: a single in-band reading with crop type rubber yields
exactly the rubber modifier 0.6. -/
theorem C2_optimal_window_gives_modifier_witness :
    calculate_growth_rate [optimalReading] "rubber" = cropModifiers "rubber" :=
  C2_optimal_window_gives_modifier [optimalReading] "rubber" (by decide)
    (by norm_num [avgOf, recentWindow, optimalReading])
    (by norm_num [avgOf, recentWindow, optimalReading])
    (by norm_num [avgOf, recentWindow, optimalReading])
    (by norm_num [avgOf, recentWindow, optimalReading])
    (by norm_num [avgOf, recentWindow, optimalReading])
    (by norm_num [avgOf, recentWindow, optimalReading])
    (by norm_num [avgOf, recentWindow, optimalReading])
    (by norm_num [avgOf, recentWindow, optimalReading])
    (by norm_num [sumOf, recentWindow, optimalReading])
    (by norm_num [sumOf, recentWindow, optimalReading])
    (by decide)

/-- C4 counterexample: the claim fails for `generate_crop_data`, which
indexes `self.crop_data[crop_type]` directly and so raises `KeyError`
(modelled as `none`) on the unknown crop type `"wheat"` instead of
falling back to the rice profile. -/
theorem C4_counterexample :
    ("wheat" ∉ knownCropTypes) ∧ generate_crop_data 0 "wheat" 1 someCropDraws = none :=
  ⟨by decide, rfl⟩

/-- C4 (amended): for every crop-type string outside the 6 known types,
`generate_soil_data` and the stage-threshold / cycle-length lookups fall
back to the rice profile, while `generate_crop_data` fails (raises
`KeyError`, modelled as `none`) rather than falling back. -/
theorem C4_unknown_crop_fallback_amended (crop_type : String)
    (hc : crop_type ∉ knownCropTypes) (weather_data : Weather) (sd : SoilDraws)
    (now : ℤ) (plot_area : ℚ) (cd : CropDraws) :
    generate_soil_data crop_type weather_data sd = generate_soil_data "rice" weather_data sd ∧
    get_stage_thresholds crop_type = get_stage_thresholds "rice" ∧
    get_cycle_days crop_type = 120 ∧
    generate_crop_data now crop_type plot_area cd = none := by
  simp only [knownCropTypes, List.mem_cons, List.not_mem_nil, or_false, not_or] at hc
  obtain ⟨h1, h2, h3, h4, h5, h6⟩ := hc
  have hnone : cropData crop_type = none := by
    simp only [cropData, if_neg h1, if_neg h2, if_neg h3, if_neg h4, if_neg h5, if_neg h6]
  have hinfo : cropDataOrRice crop_type = cropDataOrRice "rice" := by
    simp [cropDataOrRice, cropData, h1, h2, h3, h4, h5, h6, String.reduceEq]
  refine ⟨?_, ?_, ?_, ?_⟩
  · simp only [generate_soil_data, hinfo]
  · simp [get_stage_thresholds, h1, h2, h3, h4, h5, h6]
  · simp [get_cycle_days, h1, h2, h3, h4, h5, h6]
  · unfold generate_crop_data
    rw [hnone]

/-- C4 witness: the amended claim at the concrete unknown type `"wheat"`. -/
theorem C4_unknown_crop_fallback_amended_witness :
    generate_soil_data "wheat" sampleWeather someSoilDraws =
      generate_soil_data "rice" sampleWeather someSoilDraws ∧
    get_stage_thresholds "wheat" = get_stage_thresholds "rice" ∧
    get_cycle_days "wheat" = 120 ∧
    generate_crop_data 0 "wheat" 1 someCropDraws = none :=
  C4_unknown_crop_fallback_amended "wheat" (by decide) sampleWeather someSoilDraws 0 1
    someCropDraws

/-- C5 counterexample: an equipment item with `fuel_level = 0` (and no
other alert condition) yields no alert at all — in particular no fuel
alert of severity high — because the source's guard
`equipment.get("fuel_level") and ...` is a truthiness test that 0 fails. -/
theorem C5_counterexample :
    fuelZeroEquipment.fuelLevel = some 0 ∧
    simulate_equipment_alerts 0 [fuelZeroEquipment] = [] := by
  refine ⟨rfl, ?_⟩
  norm_num [simulate_equipment_alerts, alertsForEquipment, fuelZeroEquipment]

/-- C5 (amended): for an equipment record with non-null `fuel_level = v`,
the derived alert list contains a fuel alert iff `v ≠ 0 ∧ v < 25`
(Python truthiness excludes 0), and that alert's severity is "high" when
`v ≤ 15` and "medium" otherwise. -/
theorem C5_fuel_alert_amended (now : ℤ) (e : Equipment) (v : ℚ)
    (hv : e.fuelLevel = some v) :
    (simulate_equipment_alerts now [e]).filter (fun a => a.atype == "fuel") =
      (if v ≠ 0 ∧ v < 25 then
        [{ atype := "fuel", severity := if v ≤ 15 then "high" else "medium",
           equipmentId := e.id, equipmentName := e.name, messageValue := v,
           timestamp := now, actionRequired := "Refuel equipment" }]
      else []) := by
  simp only [simulate_equipment_alerts, List.flatMap_cons, List.flatMap_nil,
    List.append_nil, alertsForEquipment, hv, List.filter_append]
  split_ifs <;>
    simp_all [List.filter, String.reduceBEq, String.reduceEq] <;>
    linarith

/-- C5 witness: fuel level 10 yields exactly one fuel alert, severity
"high". -/
theorem C5_fuel_alert_amended_witness :
    (simulate_equipment_alerts 0 [fuelTenEquipment]).filter (fun a => a.atype == "fuel") =
      [{ atype := "fuel", severity := "high", equipmentId := "eq-1",
         equipmentName := "Tractor B", messageValue := 10, timestamp := 0,
         actionRequired := "Refuel equipment" }] := by
  have h := C5_fuel_alert_amended 0 fuelTenEquipment 10 rfl
  norm_num [fuelTenEquipment] at h
  exact h

/-- C6: the alert deriver is stateless — calling it twice on the identical
equipment list yields two identical alert lists, and their concatenation
contains every alert with doubled multiplicity (no deduplication between
the calls). -/
theorem C6_alerts_idempotent (now : ℤ) (equipment_list : List Equipment) :
    simulate_equipment_alerts now equipment_list =
      simulate_equipment_alerts now equipment_list ∧
    ∀ a : Alert,
      (simulate_equipment_alerts now equipment_list ++
        simulate_equipment_alerts now equipment_list).count a =
      2 * (simulate_equipment_alerts now equipment_list).count a :=
  ⟨rfl, fun a => by rw [List.count_append, two_mul]⟩

/-- C7 counterexample: with the current time at 1970-01-01 00:00 (month
1, wet season) and a shift of 3960 hours (165 days, landing on
1970-06-15, month 6), the produced sample carries the wet season of the
*unshifted* time, not the dry season the shifted month demands. -/
theorem C7_counterexample :
    (generate_weather_data 0 3960 zeroWeatherDraws (fun _ => 0)).season = "wet_season" ∧
    monthOfHours (0 + 3960) = 6 ∧
    seasonForMonth 6 = "dry_season" ∧
    ("wet_season" : String) ≠ "dry_season" :=
  ⟨rfl, by decide, rfl, by decide⟩

/-- C7 (amended): the weather sample's season is derived from the month
of the *unshifted* current wall-clock time for every offset
(`get_current_season` ignores `time_offset_hours`), using the fixed
partition {6,7,8,9}→dry, {10,11,12,1,2,3}→wet, {4,5}→transition. -/
theorem C7_season_ignores_offset_amended (now time_offset_hours : ℤ)
    (d : WeatherDraws) (sin0 : ℚ → ℚ) :
    (generate_weather_data now time_offset_hours d sin0).season =
      seasonForMonth (monthOfHours now) ∧
    (seasonForMonth 1 = "wet_season" ∧ seasonForMonth 2 = "wet_season" ∧
     seasonForMonth 3 = "wet_season" ∧ seasonForMonth 4 = "transition" ∧
     seasonForMonth 5 = "transition" ∧ seasonForMonth 6 = "dry_season" ∧
     seasonForMonth 7 = "dry_season" ∧ seasonForMonth 8 = "dry_season" ∧
     seasonForMonth 9 = "dry_season" ∧ seasonForMonth 10 = "wet_season" ∧
     seasonForMonth 11 = "wet_season" ∧ seasonForMonth 12 = "wet_season") :=
  ⟨rfl, by decide⟩

/-- C10: every weather sample has non-negative light intensity, and at
hours 6 and 18 the daytime parabola is negative, so the clamp makes the
returned light intensity exactly 0. -/
theorem C10_light_intensity_clamped (now time_offset_hours : ℤ) (d : WeatherDraws)
    (sin0 : ℚ → ℚ) :
    0 ≤ (generate_weather_data now time_offset_hours d sin0).light_intensity ∧
    ((hourOfHours (now + time_offset_hours) = 6 ∨
      hourOfHours (now + time_offset_hours) = 18) →
      (generate_weather_data now time_offset_hours d sin0).light_intensity = 0) := by
  constructor
  · simp only [generate_weather_data]
    exact pyRoundTo_nonneg 0 _ (le_max_left 0 _)
  · intro hh
    simp only [generate_weather_data]
    rcases hh with h6 | h18
    · rw [h6, if_pos (by norm_num : (6 : ℤ) ≤ 6 ∧ (6 : ℤ) ≤ 18)]
      split_ifs <;>
      · rw [max_eq_left (by norm_num)]
        simp [pyRoundTo, rhe]
    · rw [h18, if_pos (by norm_num : (6 : ℤ) ≤ 18 ∧ (18 : ℤ) ≤ 18)]
      split_ifs <;>
      · rw [max_eq_left (by norm_num)]
        simp [pyRoundTo, rhe]

/-- C10 witness: at hour 6 the returned light intensity is exactly 0. -/
theorem C10_light_intensity_clamped_witness :
    0 ≤ (generate_weather_data 6 0 zeroWeatherDraws (fun _ => 0)).light_intensity ∧
    (generate_weather_data 6 0 zeroWeatherDraws (fun _ => 0)).light_intensity = 0 :=
  ⟨(C10_light_intensity_clamped 6 0 zeroWeatherDraws (fun _ => 0)).1,
   (C10_light_intensity_clamped 6 0 zeroWeatherDraws (fun _ => 0)).2 (Or.inl (by decide))⟩

/-- C9: for every location-independent start time and `days ≥ 1`, the
forecast has exactly `days` entries, whose dates are the consecutive
epoch days starting at tomorrow — strictly increasing, day 1 first. -/
theorem C9_forecast_chronological (now : ℤ) (days : ℕ) (wd : ℕ → WeatherDraws)
    (fd : ℕ → ForecastDraws) (sin0 : ℚ → ℚ) (hdays : 1 ≤ days) :
    (generate_weather_forecast now days wd fd sin0).length = days ∧
    (generate_weather_forecast now days wd fd sin0).map (fun f => f.date) =
      (List.range days).map (fun i : ℕ => epochDayOfHours now + ((i : ℤ) + 1)) ∧
    ((generate_weather_forecast now days wd fd sin0).map (fun f => f.date)).Pairwise
      (· < ·) ∧
    ((generate_weather_forecast now days wd fd sin0).map (fun f => f.date)).head? =
      some (epochDayOfHours now + 1) := by
  have hmap : (generate_weather_forecast now days wd fd sin0).map (fun f => f.date) =
      (List.range days).map (fun i : ℕ => epochDayOfHours now + ((i : ℤ) + 1)) := by
    unfold generate_weather_forecast
    rw [List.map_map]
    apply List.map_congr_left
    intro i hi
    show epochDayOfHours (now + 24 * ((i + 1 : ℕ) : ℤ)) = epochDayOfHours now + ((i : ℤ) + 1)
    unfold epochDayOfHours
    push_cast
    omega
  refine ⟨by simp [generate_weather_forecast], hmap, ?_, ?_⟩
  · rw [hmap, List.pairwise_map]
    exact List.Pairwise.imp (fun hab => by omega) (List.pairwise_lt_range days)
  · rw [hmap]
    cases days with
    | zero => omega
    | succ k =>
      rw [List.range_succ_eq_map]
      simp

/-- C9 witness: the 7-day forecast from hour 0. -/
theorem C9_forecast_chronological_witness :
    (generate_weather_forecast 0 7 (fun _ => zeroWeatherDraws) (fun _ => zeroForecastDraws)
        (fun _ => 0)).length = 7 ∧
    (generate_weather_forecast 0 7 (fun _ => zeroWeatherDraws) (fun _ => zeroForecastDraws)
        (fun _ => 0)).map (fun f => f.date) =
      (List.range 7).map (fun i : ℕ => epochDayOfHours 0 + ((i : ℤ) + 1)) ∧
    ((generate_weather_forecast 0 7 (fun _ => zeroWeatherDraws) (fun _ => zeroForecastDraws)
        (fun _ => 0)).map (fun f => f.date)).Pairwise (· < ·) ∧
    ((generate_weather_forecast 0 7 (fun _ => zeroWeatherDraws) (fun _ => zeroForecastDraws)
        (fun _ => 0)).map (fun f => f.date)).head? = some (epochDayOfHours 0 + 1) :=
  C9_forecast_chronological 0 7 (fun _ => zeroWeatherDraws) (fun _ => zeroForecastDraws)
    (fun _ => 0) (by norm_num)

/-- C8 counterexample: `update_crop_progress` has no lower clamp
(`min(100, ...)` only), so a crop whose well-formed `planted_date` lies
in the future of the update instant gets a negative `growth_progress`. -/
theorem C8_counterexample :
    (0 : ℤ) < futureCrop.plantedDate ∧
    (update_crop_progress 0 futureCrop 1).merged.growthProgress < 0 := by
  constructor
  · decide
  · have h : ((0 : ℤ) - futureCrop.plantedDate) / 24 = -1 := by decide
    simp only [update_crop_progress, h]
    norm_num [futureCrop, get_cycle_days, String.reduceEq]

/-- C8 (amended): every crop produced by `generate_crop_data` has
`growth_progress` in [0, 100], and `update_crop_progress` keeps
`growth_progress` in [0, 100] for every growth rate in [0.1, 2.0]
provided the crop's `planted_date` does not lie in the future of the
update instant. -/
theorem C8_growth_progress_amended (now : ℤ) (crop_type : String) (plot_area : ℚ)
    (cd : CropDraws) (c : CropRec) (growth_rate : ℚ)
    (hr1 : 0.1 ≤ growth_rate) (hr2 : growth_rate ≤ 2) (hpast : c.plantedDate ≤ now) :
    (∀ out : CropRec, generate_crop_data now crop_type plot_area cd = some out →
      0 ≤ out.growthProgress ∧ out.growthProgress ≤ 100) ∧
    (0 ≤ (update_crop_progress now c growth_rate).merged.growthProgress ∧
      (update_crop_progress now c growth_rate).merged.growthProgress ≤ 100) := by
  constructor
  · intro out hgen
    unfold generate_crop_data cropData at hgen
    split_ifs at hgen <;>
      simp only [Option.some.injEq] at hgen <;>
      subst hgen <;>
      exact genProgress_bounds _ cd.daysU (by norm_num)
  · have hdsp : (0 : ℤ) ≤ (now - c.plantedDate) / 24 :=
      Int.ediv_nonneg (by omega) (by norm_num)
    have hrate : (0 : ℚ) < growth_rate := by linarith
    have hcyc := get_cycle_days_pos c.ctype
    have hnum : (0 : ℚ) ≤ (((now - c.plantedDate) / 24 : ℤ) : ℚ) * growth_rate := by
      apply mul_nonneg _ (le_of_lt hrate)
      exact_mod_cast hdsp
    simp only [update_crop_progress]
    constructor
    · apply le_min (by norm_num)
      apply mul_nonneg (div_nonneg hnum (le_of_lt hcyc)) (by norm_num)
    · exact min_le_left _ _

/-- C8 witness: the update bounds at a crop planted 10 days in the past
with growth rate 1. -/
theorem C8_growth_progress_amended_witness :
    0 ≤ (update_crop_progress 0 pastCrop 1).merged.growthProgress ∧
    (update_crop_progress 0 pastCrop 1).merged.growthProgress ≤ 100 :=
  (C8_growth_progress_amended 0 "rice" 1 someCropDraws pastCrop 1 (by norm_num)
    (by norm_num) (by decide)).2

end FarmSim
